import Mathlib

/-!
Shallow embedding of `src/web_scraper.py` (zer0crypt02/Web-Scraper) and
verification of the frozen claims about its specification.

Conventions:
* The DOM engine (BeautifulSoup) and the network are external collaborators;
  they are modelled as explicit data (`Soup`, fields of `Env`).
* Python's `re` module, `urllib.parse.urlparse`, `os.path` are modelled for
  ASCII plus the Latin-1 block where character classes are concerned; this is
  noted at each definition.
* Fallible Python code that the scraper catches is modelled by `Option` or by
  explicit outcome types.
-/

namespace WebScraper

/-! ## Nondeterministic regex matching combinators

The validator `validate_url` compiles one fixed regular expression.  We embed
the matching of that expression by combinators that map an input character
list to the list of all possible remainders; the boolean match result of the
anchored pattern is "some remainder is accepting".  This reachability
semantics coincides with the Python engine's boolean `match` result
(greediness only affects which match is found, not whether one exists). -/

/-- A matcher: maps the input to the list of possible remainders. -/
abbrev M := List Char → List (List Char)

/-- Matcher accepting the empty word. -/
def epsM : M := fun s => [s]

/-- Matcher for a single character satisfying `p`. -/
def charM (p : Char → Bool) : M
  | [] => []
  | c :: r => if p c then [r] else []

/-- Sequential composition of matchers. -/
def seqM (a b : M) : M := fun s => (a s).flatMap b

/-- Alternation of matchers. -/
def altM (a b : M) : M := fun s => a s ++ b s

/-- Zero-or-one repetition. -/
def optM (a : M) : M := altM a epsM

/-- At most `n` repetitions of `a` (the regex `a{0,n}`). -/
def repUpTo (a : M) : Nat → M
  | 0 => epsM
  | n + 1 => altM epsM (seqM a (repUpTo a n))

/-- Kleene star with explicit fuel.  With fuel at least the input length this
is complete: every additional iteration of a useful (consuming) matcher
shortens the input. -/
def starM (a : M) : Nat → M
  | 0, s => [s]
  | n + 1, s => s :: (a s).flatMap (starM a n)

/-- One-or-more repetitions with fuel (the regex `a+`). -/
def plusM (a : M) (fuel : Nat) : M := seqM a (starM a fuel)

/-- Case-insensitive match of one given lowercase character, an ASCII model of
`re.IGNORECASE` on a literal. -/
def ci (a : Char) : Char → Bool := fun c => c.toLower == a

/-- Case-insensitive literal word. -/
def strCiM : List Char → M
  | [] => epsM
  | a :: as => seqM (charM (ci a)) (strCiM as)

/-! ## The URL pattern of `validate_url` (source lines 21–27)

`^https?://(?:(?:[A-Z0-9](?:[A-Z0-9-]{0,61}[A-Z0-9])?\.)+[A-Z]{2,6}\.?|localhost|\d{1,3}\.\d{1,3}\.\d{1,3}\.\d{1,3})(?::\d+)?(?:/?|[/?]\S+)$`
with `re.IGNORECASE`.  Character classes are modelled on ASCII. -/

/-- The class `[A-Z0-9]` under `re.IGNORECASE` (ASCII model). -/
def alnumA (c : Char) : Bool := c.isAlphanum

/-- The class `[A-Z0-9-]` under `re.IGNORECASE` (ASCII model). -/
def alnumDashA (c : Char) : Bool := c.isAlphanum || c == '-'

/-- The class `[A-Z]` under `re.IGNORECASE` (ASCII model). -/
def alphaA (c : Char) : Bool := c.isAlpha

/-- One DNS label of the pattern: `[A-Z0-9](?:[A-Z0-9-]{0,61}[A-Z0-9])?`. -/
def labelM : M :=
  seqM (charM alnumA) (optM (seqM (repUpTo (charM alnumDashA) 61) (charM alnumA)))

/-- A label followed by a literal dot. -/
def labelDotM : M := seqM labelM (charM (fun c => c == '.'))

/-- The TLD part `[A-Z]{2,6}`. -/
def tldM : M := seqM (charM alphaA) (seqM (charM alphaA) (repUpTo (charM alphaA) 4))

/-- The domain alternative `(?:[A-Z0-9](?:[A-Z0-9-]{0,61}[A-Z0-9])?\.)+[A-Z]{2,6}\.?`. -/
def domainM (fuel : Nat) : M :=
  seqM (plusM labelDotM fuel) (seqM tldM (optM (charM (fun c => c == '.'))))

/-- The IPv4 alternative group `\d{1,3}` (ASCII digit model of `\d`). -/
def d13M : M := seqM (charM Char.isDigit) (repUpTo (charM Char.isDigit) 2)

/-- A literal dot. -/
def dotM : M := charM (fun c => c == '.')

/-- The alternative `\d{1,3}\.\d{1,3}\.\d{1,3}\.\d{1,3}`. -/
def ipM : M := seqM d13M (seqM dotM (seqM d13M (seqM dotM (seqM d13M (seqM dotM d13M)))))

/-- The host group: domain, `localhost`, or dotted digit quad. -/
def hostM (fuel : Nat) : M :=
  altM (domainM fuel) (altM (strCiM ['l','o','c','a','l','h','o','s','t']) ipM)

/-- The optional port `(?::\d+)?`. -/
def portM (fuel : Nat) : M :=
  optM (seqM (charM (fun c => c == ':')) (plusM (charM Char.isDigit) fuel))

/-- Python's `\S` (ASCII whitespace model). -/
def nonSpace (c : Char) : Bool := !c.isWhitespace

/-- The trailing group `(?:/?|[/?]\S+)`. -/
def tailM (fuel : Nat) : M :=
  altM (optM (charM (fun c => c == '/')))
    (seqM (charM (fun c => c == '/' || c == '?')) (plusM (charM nonSpace) fuel))

/-- The whole anchored pattern, right-nested so membership can be peeled off
one character at a time. -/
def urlRegexM (fuel : Nat) : M :=
  seqM (charM (ci 'h')) (seqM (charM (ci 't')) (seqM (charM (ci 't')) (seqM (charM (ci 'p'))
    (seqM (optM (charM (ci 's'))) (seqM (charM (fun c => c == ':'))
      (seqM (charM (fun c => c == '/')) (seqM (charM (fun c => c == '/'))
        (seqM (hostM fuel) (seqM (portM fuel) (tailM fuel))))))))))

/-- Acceptance at `$` without `re.MULTILINE`: end of input, or just before a
single trailing newline. -/
def acceptsEnd (r : List Char) : Bool := r.isEmpty || r == ['\n']

/-- Boolean result of `url_pattern.match(url)` (source lines 21–30). -/
def url_pattern_match (s : String) : Bool :=
  ((urlRegexM (s.toList.length + 1)) s.toList).any acceptsEnd

/-! ## A model of `urllib.parse.urlparse` (the parts the program consults) -/

/-- Characters allowed in a URL scheme after the leading letter. -/
def isSchemeChar (c : Char) : Bool := c.isAlphanum || c == '+' || c == '-' || c == '.'

/-- Helper splitting `scheme:rest`, accumulating the scheme seen so far. -/
def schemeSplitGo (acc : List Char) : List Char → Option (List Char × List Char)
  | [] => none
  | c :: r =>
    if c == ':' then some (acc.reverse, r)
    else if isSchemeChar c then schemeSplitGo (c :: acc) r
    else none

/-- Split a URL into scheme and remainder, as `urlparse` recognizes schemes
(leading letter, then scheme characters, then a colon). -/
def schemeSplit : List Char → Option (List Char × List Char)
  | [] => none
  | c :: r => if c.isAlpha then schemeSplitGo [c] r else none

/-- Netloc and path of the part after the scheme: a netloc is present only
after `//` and runs to the next `/`, `?` or `#`; the path then runs to the
next `?` or `#`. -/
def netlocAndPath (r : List Char) : List Char × List Char :=
  match r with
  | '/' :: '/' :: rest =>
    (rest.takeWhile (fun c => c ≠ '/' && c ≠ '?' && c ≠ '#'),
     (rest.dropWhile (fun c => c ≠ '/' && c ≠ '?' && c ≠ '#')).takeWhile
       (fun c => c ≠ '?' && c ≠ '#'))
  | _ => ([], r.takeWhile (fun c => c ≠ '?' && c ≠ '#'))

/-- The `.path` component of `urlparse`. -/
def urlPathStr (s : String) : String :=
  match schemeSplit s.toList with
  | some (_, rest) => ⟨(netlocAndPath rest).2⟩
  | none => ⟨(netlocAndPath s.toList).2⟩

/-- The `.netloc` component of `urlparse`. -/
def urlNetloc (s : String) : List Char :=
  match schemeSplit s.toList with
  | some (_, rest) => (netlocAndPath rest).1
  | none => (netlocAndPath s.toList).1

/-- The `.scheme` component of `urlparse` (empty when no scheme present). -/
def urlScheme (s : String) : List Char :=
  match schemeSplit s.toList with
  | some (sch, _) => sch
  | none => []

/-- Embedding of `validate_url` (source lines 13–36): the compiled pattern
must match, and then `urlparse` must yield a truthy scheme and netloc.  The
Python `try`/`except` returning `False` is subsumed by totality. -/
def validate_url (s : String) : Bool :=
  if url_pattern_match s then
    !(urlScheme s).isEmpty && !(urlNetloc s).isEmpty
  else false

/-! ## String primitives

Python's `str.startswith`, `str.endswith` and `str.strip` are modelled on the
character-list level (`strip` on ASCII whitespace). -/

/-- Whether the first list begins with the second. -/
def startsWithL : List Char → List Char → Bool
  | _, [] => true
  | [], _ :: _ => false
  | c :: cs, p :: ps => c == p && startsWithL cs ps

/-- Python `s.startswith(pre)`. -/
def pyStartsWith (s pre : String) : Bool := startsWithL s.data pre.data

/-- Python `s.endswith(suf)`. -/
def pyEndsWith (s suf : String) : Bool := startsWithL s.data.reverse suf.data.reverse

/-- Python `s.strip()` (ASCII whitespace model). -/
def pyStrip (s : String) : String :=
  ⟨((s.data.dropWhile Char.isWhitespace).reverse.dropWhile Char.isWhitespace).reverse⟩

/-! ## Filenames in `download_image` (source lines 56–63) -/

/-- Python re's `\w` for a `str` pattern: `[a-zA-Z0-9_]` plus Unicode
alphanumerics.  Modelled exactly for code points below `0x100` (ASCII plus the
Latin-1 block: `ª µ º ² ³ ¹ ¼ ½ ¾` and the letters `À`–`ÿ` except `×` and
`÷`); code points at or above `0x100` are treated as non-word here. -/
def pyWordChar (c : Char) : Bool :=
  c.isAlphanum || c == '_' ||
  (0xC0 ≤ c.toNat && c.toNat ≤ 0xFF && !(c.toNat == 0xD7) && !(c.toNat == 0xF7)) ||
  c.toNat == 0xAA || c.toNat == 0xB2 || c.toNat == 0xB3 || c.toNat == 0xB5 ||
  c.toNat == 0xB9 || c.toNat == 0xBA || c.toNat == 0xBC || c.toNat == 0xBD ||
  c.toNat == 0xBE

/-- The characters kept by `re.sub(r'[^\w\-_.]', '', filename)`. -/
def pyKeepChar (c : Char) : Bool := pyWordChar c || c == '-' || c == '.'

/-- Embedding of `re.sub(r'[^\w\-_.]', '', filename)` (source line 58). -/
def pySanitize (s : String) : String := ⟨s.data.filter pyKeepChar⟩

/-- Embedding of `os.path.basename`: the part after the last `/`. -/
def basenameStr (s : String) : String := ⟨(s.data.reverse.takeWhile (fun c => c ≠ '/')).reverse⟩

/-- Embedding of `os.path.join` for two components. -/
def pathJoin (a b : String) : String :=
  if pyStartsWith b "/" then b
  else if a == "" || pyEndsWith a "/" then a ++ b
  else a ++ "/" ++ b

/-! ## The DOM and the effect environment -/

/-- An HTML element as surfaced by the DOM engine (BeautifulSoup): `text`
models `.text`, `str_` models `.string` (`none` when the element does not
have a single string child), `attrs` the attribute map consulted by
`.get`. -/
structure Elem where
  text : String
  str_ : Option String
  attrs : List (String × String)
deriving Repr, DecidableEq

/-- Python `element.get(key)`: the attribute value, or `None`. -/
def Elem.attr (e : Elem) (k : String) : Option String :=
  (e.attrs.find? (fun p => p.1 == k)).map (fun p => p.2)

/-- Python truthiness of an optional string (`None` and `''` are falsy). -/
def truthy : Option String → Bool
  | none => false
  | some s => !(s == "")

/-- A parsed page: `select` models `soup.select` (and `select_one` is its
head), `imgs` models `soup.find_all('img')`. -/
structure Soup where
  select : String → List Elem
  imgs : List Elem

/-- Outcome of the page fetch (`requests.get` + `raise_for_status` +
`BeautifulSoup`): success with a parsed page, a
`requests.exceptions.RequestException` (transport error or non-2xx status),
or any other exception raised in the body. -/
inductive FetchOutcome where
  | ok (soup : Soup)
  | requestError (msg : String)
  | otherError (msg : String)

/-- The effectful collaborators of the scraper, made explicit: the page fetch
per URL, `urllib.parse.urljoin`, whether `requests.get(...).raise_for_status`
succeeds for an image URL, whether opening and writing a file path succeeds,
`int(time.time())`, `datetime.now().isoformat()`, and the computed
`pictures` directory. -/
structure Env where
  fetch : String → FetchOutcome
  urljoin : String → String → String
  imgFetchOk : String → Bool
  writeOk : String → Bool
  now : Nat
  timestamp : String
  picturesDir : String

/-- The filename chosen by `download_image` after a successful image fetch
(source lines 56–60). -/
def finalFilename (env : Env) (url : String) : String :=
  let filename := pySanitize (basenameStr (urlPathStr url))
  if filename == "" then "image_" ++ toString env.now ++ ".jpg" else filename

/-- Embedding of `download_image` (source lines 38–71): skip non-http(s)
URLs, fetch, derive a filename, write; every failure is caught and mapped to
`None`. -/
def download_image (env : Env) (url saveDir : String) : Option String :=
  if pyStartsWith url "http://" || pyStartsWith url "https://" then
    if env.imgFetchOk url then
      let filepath := pathJoin saveDir (finalFilename env url)
      if env.writeOk filepath then some filepath else none
    else none
  else none

/-- Whether `download_image` printed its error line (source line 70): only
fetch or write failures are reported; the non-http(s) early return is
silent. -/
def download_image_logs_error (env : Env) (url saveDir : String) : Bool :=
  (pyStartsWith url "http://" || pyStartsWith url "https://") &&
  (!env.imgFetchOk url ||
    !env.writeOk (pathJoin saveDir (finalFilename env url)))

/-! ## The single-URL scraper -/

/-- A link entry `{'text': ..., 'href': ...}`. -/
structure LinkRec where
  text : String
  href : String
deriving Repr, DecidableEq

/-- An image entry `{'original_url': ..., 'saved_path': ...}`. -/
structure ImageRec where
  original_url : String
  saved_path : String
deriving Repr, DecidableEq

/-- The success dictionary built by `web_scraper` (source lines 108–115 and
138); `images` is present only when image download was requested. -/
structure ScrapeData where
  url : String
  timestamp : String
  title : Option String
  paragraphs : List String
  links : List LinkRec
  images : Option (List ImageRec)
deriving Repr, DecidableEq

/-- The error kinds distinguished by the two `except` clauses. -/
inductive ErrorKind where
  | connectionError
  | unexpectedError
deriving Repr, DecidableEq

/-- Result of one scrape: the success dictionary, or the sentinel error
dictionary `{'error': ...}` tagged here with which `except` clause built
it. -/
inductive ScrapeResult where
  | success (d : ScrapeData)
  | failure (kind : ErrorKind) (msg : String)
deriving Repr, DecidableEq

def ScrapeResult.isSuccess : ScrapeResult → Bool
  | .success _ => true
  | .failure _ _ => false

def ScrapeResult.isFailure : ScrapeResult → Bool
  | .success _ => false
  | .failure _ _ => true

def ScrapeResult.titleOf : ScrapeResult → Option (Option String)
  | .success d => some d.title
  | .failure _ _ => none

def ScrapeResult.linksOf : ScrapeResult → Option (List LinkRec)
  | .success d => some d.links
  | .failure _ _ => none

def ScrapeResult.imagesOf : ScrapeResult → Option (Option (List ImageRec))
  | .success d => some d.images
  | .failure _ _ => none

/-- The keys of the returned Python dictionary, in insertion order: success
dictionaries carry the data fields (plus `images` when set), error
dictionaries carry exactly the single key `error`. -/
def resultKeys : ScrapeResult → List String
  | .success d =>
    ["url", "timestamp", "title", "paragraphs", "links"] ++
      (if d.images.isSome then ["images"] else [])
  | .failure _ _ => ["error"]

/-- The full error message of a failure dictionary, with the Turkish prefix
written by the corresponding `except` clause. -/
def failureMessage : ErrorKind → String → String
  | .connectionError, m => "Bağlantı hatası: " ++ m
  | .unexpectedError, m => "Beklenmeyen hata: " ++ m

/-- The default selector dictionary (source lines 102–106). -/
def defaultSelectors : List (String × String) :=
  [("title", "title"), ("paragraphs", "p"), ("links", "a")]

/-- Python `dict[key]` lookup on our association-list model of a dict. -/
def dictGet (d : List (String × String)) (k : String) : Option String :=
  (d.find? (fun p => p.1 == k)).map (fun p => p.2)

/-- The `if not selectors:` default substitution (source lines 101–106): the
defaults replace the argument when it is `None` or an empty dict (both falsy
in Python); any non-empty dict is used as-is. -/
def effSelectors : Option (List (String × String)) → List (String × String)
  | none => defaultSelectors
  | some s => if s.isEmpty then defaultSelectors else s

/-- Title extraction (source line 111): `.string` of the first element
matched by the selector, or the literal Turkish fallback. -/
def extractTitle (soup : Soup) (tSel : String) : Option String :=
  match (soup.select tSel).head? with
  | some e => e.str_
  | none => some "Başlık bulunamadı"

/-- Paragraph extraction (source line 112): trimmed text of the first five
matched elements. -/
def extractParagraphs (soup : Soup) (pSel : String) : List String :=
  ((soup.select pSel).take 5).map (fun p => pyStrip p.text)

/-- Link extraction (source lines 113–114): the first ten matched elements
are sliced off first, and only then filtered for a truthy `href`. -/
def extractLinks (soup : Soup) (lSel : String) : List LinkRec :=
  (((soup.select lSel).take 10).filter (fun a => truthy (a.attr "href"))).map
    (fun a => ⟨pyStrip a.text, (a.attr "href").getD ""⟩)

/-- Per-image behavior of the download loop (source lines 125–136): skip a
falsy `src`, resolve against the page URL, download, and record the outcome
only on success. -/
def imgOutcome (env : Env) (pageUrl : String) (img : Elem) : Option ImageRec :=
  if truthy (img.attr "src") then
    let img_url := env.urljoin pageUrl ((img.attr "src").getD "")
    match download_image env img_url env.picturesDir with
    | some p => some ⟨img_url, p⟩
    | none => none
  else none

/-- Embedding of `web_scraper` (source lines 73–145).  A missing key in a
non-empty selector dict raises `KeyError` inside the dict literal (evaluated
in the order `title`, `paragraphs`, `links`), which the generic `except`
clause maps to the unexpected-error dictionary. -/
def web_scraper (env : Env) (url : String)
    (selectors : Option (List (String × String))) (download_images : Bool) :
    ScrapeResult :=
  match env.fetch url with
  | .requestError m => .failure .connectionError ("Bağlantı hatası: " ++ m)
  | .otherError m => .failure .unexpectedError ("Beklenmeyen hata: " ++ m)
  | .ok soup =>
    match dictGet (effSelectors selectors) "title" with
    | none => .failure .unexpectedError "Beklenmeyen hata: 'title'"
    | some tSel =>
      match dictGet (effSelectors selectors) "paragraphs" with
      | none => .failure .unexpectedError "Beklenmeyen hata: 'paragraphs'"
      | some pSel =>
        match dictGet (effSelectors selectors) "links" with
        | none => .failure .unexpectedError "Beklenmeyen hata: 'links'"
        | some lSel =>
          .success
            { url := url
              timestamp := env.timestamp
              title := extractTitle soup tSel
              paragraphs := extractParagraphs soup pSel
              links := extractLinks soup lSel
              images :=
                if download_images then
                  some (soup.imgs.filterMap (imgOutcome env url))
                else none }

/-- Embedding of `scrape_multiple_urls` (source lines 183–195): every URL is
scraped and the results are collected in submission order, keeping only the
dictionaries without an `error` key. -/
def scrape_multiple_urls (env : Env) (urls : List String)
    (selectors : Option (List (String × String))) (download_images : Bool) :
    List ScrapeResult :=
  (urls.map (fun u => web_scraper env u selectors download_images)).filter
    (fun r => !((resultKeys r).contains "error"))

/-! ## The worker pool of `scrape_multiple_urls`

`ThreadPoolExecutor(max_workers=5)` (source line 186) is an external library
collaborator; its documented scheduling is modelled as a transition system: a
queued task may start only while fewer than `max_workers` tasks are running,
and any running task may finish. -/

/-- The `max_workers` argument at source line 186. -/
def executorMaxWorkers : Nat := 5

/-- State of the worker pool: submitted-but-unstarted tasks, running tasks,
finished tasks. -/
structure PoolState where
  queued : List String
  running : List String
  finished : List String
deriving Repr, DecidableEq

/-- One scheduling step of a pool with `w` workers. -/
inductive PoolStep (w : Nat) : PoolState → PoolState → Prop
  | start (u : String) (q r f : List String) :
      r.length < w →
      PoolStep w ⟨u :: q, r, f⟩ ⟨q, u :: r, f⟩
  | finish (u : String) (q r₁ r₂ f : List String) :
      PoolStep w ⟨q, r₁ ++ u :: r₂, f⟩ ⟨q, r₁ ++ r₂, u :: f⟩

/-- The state right after all futures are submitted: everything queued,
nothing running. -/
def initialPool (urls : List String) : PoolState := ⟨urls, [], []⟩

/-! ## Reference definitions following the spec's words

These are refinement references: each follows the natural-language claim, to
be compared with the definitions embedded from the source above. -/

/-- Follows the spec's words for the links claim: "up to the first 10
matching elements that carry a non-null href attribute, preserving document
order; each yields trimmed visible text plus raw href" — i.e. filter for a
present `href` first, then take ten. -/
def specLinks (soup : Soup) (lSel : String) : List LinkRec :=
  (((soup.select lSel).filter (fun a => (a.attr "href").isSome)).take 10).map
    (fun a => ⟨pyStrip a.text, (a.attr "href").getD ""⟩)

/-- Follows the spec's words for the filename claim: "every character outside
the class [A-Za-z0-9_.-] stripped". -/
def specSanitize (s : String) : String :=
  ⟨s.data.filter (fun c => c.isAlphanum || c == '_' || c == '.' || c == '-')⟩

/-- Follows the spec's words: a syntactically valid DNS label (nonempty, at
most 63 characters, alphanumerics and hyphens, alphanumeric at both ends). -/
def specDnsLabel : List Char → Bool
  | [] => false
  | c :: cs =>
    c.isAlphanum && (c :: cs).length ≤ 63 &&
    (c :: cs).all (fun d => d.isAlphanum || d == '-') &&
    (match (c :: cs).getLast? with
     | some d => d.isAlphanum
     | none => false)

/-- Numeric value of a digit string. -/
def digitsVal (l : List Char) : Nat :=
  l.foldl (fun n c => n * 10 + (c.toNat - 48)) 0

/-- Follows the spec's words for the validator claim: a valid host is a
DNS-label domain (at least two dot-separated valid labels), `localhost`, or a
dotted-quad IPv4 address (four decimal octets, each at most 255). -/
def specValidHost (h : List Char) : Bool :=
  let parts := h.splitOn '.'
  (parts.length ≥ 2 && parts.all specDnsLabel) ||
  h == ['l','o','c','a','l','h','o','s','t'] ||
  (parts.length == 4 &&
    parts.all (fun p => !p.isEmpty && p.all Char.isDigit && p.length ≤ 3 &&
      digitsVal p ≤ 255))

/-- Follows the spec's words: a well-formed absolute http(s) URL — an
`http://` or `https://` scheme, a valid host, an optional decimal port, and
an optional path/query free of whitespace. -/
def spec_wellformed_url (s : String) : Bool :=
  let step : List Char → Bool := fun rest =>
    let auth := rest.takeWhile (fun c => c ≠ '/' && c ≠ '?')
    let t := rest.dropWhile (fun c => c ≠ '/' && c ≠ '?')
    (match auth.splitOn ':' with
     | [h] => specValidHost h
     | [h, p] => specValidHost h && !p.isEmpty && p.all Char.isDigit
     | _ => false) &&
    t.all (fun c => !c.isWhitespace)
  if pyStartsWith s "http://" then step (s.toList.drop 7)
  else if pyStartsWith s "https://" then step (s.toList.drop 8)
  else false

/-- The scheme shape every accepted URL must have: the input begins,
case-insensitively, with `http://` or `https://`. -/
def schemeOk (s : String) : Bool :=
  startsWithL (s.toList.map Char.toLower) ['h','t','t','p',':','/','/'] ||
  startsWithL (s.toList.map Char.toLower) ['h','t','t','p','s',':','/','/']

/-! ## Helper lemmas -/

/-- The returned dictionary contains the key `error` exactly when it came
from an `except` clause. -/
lemma resultKeys_contains_error (r : ScrapeResult) :
    (resultKeys r).contains "error" = r.isFailure := by
  cases r with
  | success d =>
    cases h : d.images with
    | none => simp [resultKeys, ScrapeResult.isFailure, h]
    | some l => simp [resultKeys, ScrapeResult.isFailure, h]
  | failure k m => simp [resultKeys, ScrapeResult.isFailure]

/-- A scrape result is a success exactly when it is not a failure. -/
lemma not_isFailure (r : ScrapeResult) : (!r.isFailure) = r.isSuccess := by
  cases r <;> rfl

/-- The batch equals the per-URL results filtered to successes. -/
lemma scrape_multiple_eq_filter (env : Env) (urls : List String)
    (sel : Option (List (String × String))) (di : Bool) :
    scrape_multiple_urls env urls sel di
      = ((urls.map (fun u => web_scraper env u sel di)).filter
          (fun r => r.isSuccess)) := by
  unfold scrape_multiple_urls
  exact List.filter_congr (fun r _ => by
    rw [resultKeys_contains_error, not_isFailure])

/-! ## Claim C2 -/

/-- C2 (confirmed): for a batch of N submitted requests of which K produce
failure dictionaries, `scrape_multiple_urls` returns exactly the N−K success
dictionaries, in submission order with the failed slots skipped, and no
failure dictionary appears in the returned sequence. -/
theorem c2_batch_keeps_exactly_successes (env : Env) (urls : List String)
    (sel : Option (List (String × String))) (di : Bool) :
    scrape_multiple_urls env urls sel di
      = ((urls.map (fun u => web_scraper env u sel di)).filter
          (fun r => r.isSuccess))
    ∧ (scrape_multiple_urls env urls sel di).length
      = urls.length -
        ((urls.map (fun u => web_scraper env u sel di)).countP
          (fun r => r.isFailure))
    ∧ (scrape_multiple_urls env urls sel di).all
        (fun r => !r.isFailure) = true := by
  refine ⟨scrape_multiple_eq_filter env urls sel di, ?_, ?_⟩
  · rw [scrape_multiple_eq_filter, ← List.countP_eq_length_filter]
    have hsplit := List.length_eq_countP_add_countP
      (fun r => r.isFailure) ((urls.map (fun u => web_scraper env u sel di)))
    have hmap : (urls.map (fun u => web_scraper env u sel di)).length
        = urls.length := List.length_map _ _
    have hcong : (urls.map (fun u => web_scraper env u sel di)).countP
          (fun a => decide ¬(ScrapeResult.isFailure a) = true)
        = (urls.map (fun u => web_scraper env u sel di)).countP
          (fun r => r.isSuccess) := by
      refine List.countP_congr (fun r _ => ?_)
      rw [← not_isFailure r]
      simp
    rw [hcong, hmap] at hsplit
    omega
  · rw [scrape_multiple_eq_filter, List.all_eq_true]
    intro r hr
    rw [not_isFailure]
    exact (List.mem_filter.mp hr).2

/-! ## Claim C9 -/

/-- C9 (confirmed): in every pool state reachable from the state in which all
requests have been submitted to the five-worker pool, at most five scrape
tasks are running simultaneously, whatever the batch size. -/
theorem c9_pool_bounds_running (urls : List String) (s : PoolState)
    (h : Relation.ReflTransGen (PoolStep executorMaxWorkers)
      (initialPool urls) s) :
    s.running.length ≤ executorMaxWorkers := by
  induction h with
  | refl => simp [initialPool, executorMaxWorkers]
  | tail hab hbc ih =>
    cases hbc with
    | start u q r f hlt => simpa using hlt
    | finish u q r₁ r₂ f =>
      simp only [List.length_append, List.length_cons] at ih ⊢
      omega

/-- Witness for C9: a concrete reachable state (one task started out of two
submitted) respects the bound. -/
theorem c9_pool_bounds_running_witness :
    (PoolState.mk ["b"] ["a"] []).running.length ≤ executorMaxWorkers :=
  c9_pool_bounds_running ["a", "b"] (PoolState.mk ["b"] ["a"] [])
    (Relation.ReflTransGen.single
      (PoolStep.start "a" ["b"] [] [] (by decide)))

/-! ## Claim C10 -/

/-- C10 (confirmed): an `img` whose `src` resolves against the page URL to
something that does not begin with `http://` or `https://` is skipped
silently: `download_image` returns no saved path and logs no failure, and the
image contributes no entry to the images sequence. -/
theorem c10_non_http_src_skipped (env : Env) (pageUrl saveDir : String)
    (img : Elem) (src : String)
    (h1 : img.attr "src" = some src) (h2 : src ≠ "")
    (h3 : pyStartsWith (env.urljoin pageUrl src) "http://" = false)
    (h4 : pyStartsWith (env.urljoin pageUrl src) "https://" = false) :
    download_image env (env.urljoin pageUrl src) saveDir = none
    ∧ download_image_logs_error env (env.urljoin pageUrl src) saveDir = false
    ∧ imgOutcome env pageUrl img = none := by
  refine ⟨?_, ?_, ?_⟩
  · simp [download_image, h3, h4]
  · simp [download_image_logs_error, h3, h4]
  · simp [imgOutcome, h1, truthy, h2, download_image, h3, h4]

/-- Witness for C10: a `data:` URI image is skipped without a failure log. -/
theorem c10_non_http_src_skipped_witness :
    imgOutcome
      (Env.mk (fun _ => FetchOutcome.otherError "x") (fun _ s => s)
        (fun _ => true) (fun _ => true) 0 "t" "pictures")
      "http://page.com" (Elem.mk "" none [("src", "data:abc")]) = none :=
  (c10_non_http_src_skipped
    (Env.mk (fun _ => FetchOutcome.otherError "x") (fun _ s => s)
      (fun _ => true) (fun _ => true) 0 "t" "pictures")
    "http://page.com" "pictures" (Elem.mk "" none [("src", "data:abc")])
    "data:abc" (by decide) (by decide) (by decide) (by decide)).2.2

/-! ## Claim C6 -/

/-- Whether a scrape fails does not depend on the image-download parts of the
environment (network success, write success, clock): per-image failures are
absorbed inside the images loop. -/
lemma web_scraper_isFailure_img_env (env : Env) (url : String)
    (sel : Option (List (String × String))) (di : Bool)
    (f w : String → Bool) (n : Nat) :
    (web_scraper
        { env with imgFetchOk := f, writeOk := w, now := n } url sel di).isFailure
      = (web_scraper env url sel di).isFailure := by
  unfold web_scraper
  dsimp only
  cases hf : env.fetch url with
  | requestError m => rfl
  | otherError m => rfl
  | ok soup =>
    cases ht : dictGet (effSelectors sel) "title" with
    | none => rfl
    | some tSel =>
      cases hp : dictGet (effSelectors sel) "paragraphs" with
      | none => rfl
      | some pSel =>
        cases hl : dictGet (effSelectors sel) "links" with
        | none => rfl
        | some lSel => rfl

/-- C6 (confirmed): with image download enabled, the images sequence is the
per-image outcomes of the page's `img` elements; an `img` with empty or
absent `src` contributes nothing; an entry appears only when the `src` was
truthy and the download-and-save of the resolved URL succeeded; and neither a
per-image failure nor the clock can turn the page scrape (or any batch
member) into a failure. -/
theorem c6_images_only_successful_downloads (env : Env) (url : String)
    (sel : Option (List (String × String))) (soup : Soup)
    (tSel pSel lSel : String)
    (hf : env.fetch url = .ok soup)
    (ht : dictGet (effSelectors sel) "title" = some tSel)
    (hp : dictGet (effSelectors sel) "paragraphs" = some pSel)
    (hl : dictGet (effSelectors sel) "links" = some lSel) :
    (web_scraper env url sel true).imagesOf
      = some (some (soup.imgs.filterMap (imgOutcome env url)))
    ∧ (∀ img : Elem, truthy (img.attr "src") = false →
        imgOutcome env url img = none)
    ∧ (∀ img : Elem, ∀ rec : ImageRec, imgOutcome env url img = some rec →
        truthy (img.attr "src") = true
        ∧ rec.original_url = env.urljoin url ((img.attr "src").getD "")
        ∧ download_image env rec.original_url env.picturesDir
            = some rec.saved_path)
    ∧ (∀ f w n, (web_scraper
          { env with imgFetchOk := f, writeOk := w, now := n } url sel true).isFailure
        = (web_scraper env url sel true).isFailure)
    ∧ (∀ f w n urls, (scrape_multiple_urls
          { env with imgFetchOk := f, writeOk := w, now := n } urls sel true).length
        = (scrape_multiple_urls env urls sel true).length) := by
  refine ⟨?_, ?_, ?_, ?_, ?_⟩
  · simp [web_scraper, hf, ht, hp, hl, ScrapeResult.imagesOf]
  · intro img h
    simp [imgOutcome, h]
  · intro img rec h
    unfold imgOutcome at h
    by_cases hs : truthy (img.attr "src") = true
    · rw [hs] at h
      simp only [if_true] at h
      refine ⟨hs, ?_⟩
      cases hd : download_image env
          (env.urljoin url ((img.attr "src").getD "")) env.picturesDir with
      | none => rw [hd] at h; simp at h
      | some p =>
        rw [hd] at h
        simp only [Option.some.injEq] at h
        rw [← h]
        exact ⟨rfl, hd⟩
    · rw [Bool.not_eq_true] at hs
      rw [hs] at h
      simp at h
  · intro f w n
    exact web_scraper_isFailure_img_env env url sel true f w n
  · intro f w n urls
    rw [scrape_multiple_eq_filter, scrape_multiple_eq_filter,
      ← List.countP_eq_length_filter, ← List.countP_eq_length_filter,
      List.countP_map, List.countP_map]
    refine List.countP_congr (fun u _ => ?_)
    have h1 : (web_scraper
          { env with imgFetchOk := f, writeOk := w, now := n } u sel true).isSuccess
        = (web_scraper env u sel true).isSuccess := by
      rw [← not_isFailure, ← not_isFailure, web_scraper_isFailure_img_env]
    simp only [Function.comp_apply, h1]

/-- The page used by the C6 witness: one image with a good `src`, one with an
empty `src`, one whose download fails. -/
def soupC6 : Soup :=
  { select := fun _ => []
    imgs :=
      [Elem.mk "" none [("src", "http://i.com/a.png")],
       Elem.mk "" none [("src", "")],
       Elem.mk "" none [("src", "http://i.com/broken.png")]] }

/-- The environment used by the C6 witness: downloading `broken.png` fails,
everything else succeeds. -/
def envC6 : Env :=
  { fetch := fun _ => .ok soupC6
    urljoin := fun _ s => s
    imgFetchOk := fun u => !(u == "http://i.com/broken.png")
    writeOk := fun _ => true
    now := 7
    timestamp := "t"
    picturesDir := "pictures" }

/-- Witness for C6: on a concrete page with a downloadable image, an
empty-`src` image and a failing image, exactly the first image appears. -/
theorem c6_images_only_successful_downloads_witness :
    (web_scraper envC6 "http://page.com" none true).imagesOf
      = some (some (soupC6.imgs.filterMap (imgOutcome envC6 "http://page.com")))
    ∧ soupC6.imgs.filterMap (imgOutcome envC6 "http://page.com")
      = [ImageRec.mk "http://i.com/a.png" "pictures/a.png"] :=
  ⟨(c6_images_only_successful_downloads envC6 "http://page.com" none soupC6
      "title" "p" "a" rfl rfl rfl rfl).1,
   by decide⟩

/-! ## Claim C1 -/

/-- The page used by claims about selector handling: the default `title`
selector matches one element, nothing else matches. -/
def soupC1 : Soup :=
  { select := fun sel =>
      if sel == "title" then [Elem.mk "DefaultTitle" (some "DefaultTitle") []]
      else []
    imgs := [] }

/-- The environment used by claims about selector handling. -/
def envC1 : Env :=
  { fetch := fun _ => .ok soupC1
    urljoin := fun _ s => s
    imgFetchOk := fun _ => false
    writeOk := fun _ => false
    now := 0
    timestamp := "t"
    picturesDir := "pictures" }

/-- C1 counterexample: a selector configuration object that is supplied but
empty — hence present and missing all of `title`, `paragraphs`, `links` —
makes the scrape behave exactly as if no configuration had been supplied: the
full defaults are applied (the title comes from the default `title`
selector), contradicting "defaults are applied only when no selector
configuration object is supplied at all". -/
theorem c1_counterexample :
    web_scraper envC1 "https://e.com" (some []) false
      = web_scraper envC1 "https://e.com" none false
    ∧ (web_scraper envC1 "https://e.com" (some []) false).titleOf
      = some (some "DefaultTitle") := by
  exact ⟨rfl, by decide⟩

/-- C1 (amended): the full default selector map is substituted exactly when
the supplied configuration is absent or an empty dict (both falsy for the
`if not selectors:` test); a non-empty configuration is used as-is, with no
per-key default filling, so a fetched page scraped with a non-empty
configuration missing the `title` key fails with the unexpected-error
(`KeyError`) dictionary instead of falling back to a default. -/
theorem c1_defaults_all_or_nothing (env : Env) (url : String) (di : Bool)
    (s : List (String × String)) :
    web_scraper env url none di = web_scraper env url (some []) di
    ∧ (s ≠ [] → effSelectors (some s) = s)
    ∧ (∀ soup : Soup, env.fetch url = .ok soup → s ≠ [] →
        dictGet s "title" = none →
        web_scraper env url (some s) di
          = .failure .unexpectedError "Beklenmeyen hata: 'title'") := by
  refine ⟨rfl, ?_, ?_⟩
  · intro h
    cases s with
    | nil => exact absurd rfl h
    | cons a t => rfl
  · intro soup hf h hnone
    have hsel : effSelectors (some s) = s := by
      cases s with
      | nil => exact absurd rfl h
      | cons a t => rfl
    unfold web_scraper
    rw [hf, hsel, hnone]

/-- Witness for C1: a non-empty configuration without a `title` key turns a
fetched page into the `KeyError` failure dictionary. -/
theorem c1_defaults_all_or_nothing_witness :
    web_scraper envC1 "https://e.com" (some [("foo", "bar")]) false
      = .failure .unexpectedError "Beklenmeyen hata: 'title'" :=
  (c1_defaults_all_or_nothing envC1 "https://e.com" false
    [("foo", "bar")]).2.2 soupC1 rfl (by decide) (by decide)

/-! ## Claim C3 -/

/-- The environment used by claim C3: every fetch raises a
`RequestException`. -/
def envC3 : Env :=
  { fetch := fun _ => .requestError "timeout"
    urljoin := fun _ s => s
    imgFetchOk := fun _ => true
    writeOk := fun _ => true
    now := 0
    timestamp := "t"
    picturesDir := "pictures" }

/-- C3 counterexample: two scrapes of different URLs through a failing fetch
return literally identical failure dictionaries whose only key is `error` —
so the failure record does not carry a `sourceUrl` field (nor separate
`errorKind`/`message` fields). -/
theorem c3_counterexample :
    web_scraper envC3 "https://a.com" none false
      = web_scraper envC3 "https://b.com" none false
    ∧ resultKeys (web_scraper envC3 "https://a.com" none false) = ["error"]
    ∧ ¬ ("url" ∈ resultKeys (web_scraper envC3 "https://a.com" none false)) := by
  decide

/-- C3 (amended): every scrape returns exactly one of a success or a failure
dictionary; a failure dictionary carries a single `error` entry whose message
is prefixed by the error kind — `ConnectionError` (Turkish prefix
`Bağlantı hatası`) for `RequestException`, i.e. transport and HTTP-status
failures, `UnexpectedError` (`Beklenmeyen hata`) for any other failure — and
it does not carry the source URL. -/
theorem c3_failure_shape (env : Env) (url : String)
    (sel : Option (List (String × String))) (di : Bool) :
    ((web_scraper env url sel di).isFailure
      = !(web_scraper env url sel di).isSuccess)
    ∧ (∀ m, env.fetch url = .requestError m →
        web_scraper env url sel di
          = .failure .connectionError (failureMessage .connectionError m))
    ∧ (∀ m, env.fetch url = .otherError m →
        web_scraper env url sel di
          = .failure .unexpectedError (failureMessage .unexpectedError m))
    ∧ (∀ k m, resultKeys (.failure k m) = ["error"]) := by
  refine ⟨?_, ?_, ?_, fun k m => rfl⟩
  · cases h : web_scraper env url sel di <;> rfl
  · intro m hm
    unfold web_scraper
    rw [hm]
    rfl
  · intro m hm
    unfold web_scraper
    rw [hm]
    rfl

/-- Witness for C3: the failing fetch produces exactly the connection-error
dictionary. -/
theorem c3_failure_shape_witness :
    web_scraper envC3 "https://a.com" none false
      = .failure .connectionError (failureMessage .connectionError "timeout") :=
  (c3_failure_shape envC3 "https://a.com" none false).2.1 "timeout" rfl

/-! ## Claim C4 -/

/-- The page used by claim C4: no element matches any selector. -/
def soupC4 : Soup := { select := fun _ => [], imgs := [] }

/-- The environment used by claim C4. -/
def envC4 : Env :=
  { fetch := fun _ => .ok soupC4
    urljoin := fun _ s => s
    imgFetchOk := fun _ => true
    writeOk := fun _ => true
    now := 0
    timestamp := "t"
    picturesDir := "pictures" }

/-- C4 counterexample: on a page where no element matches the title selector
the extracted title is the Turkish literal `Başlık bulunamadı`, not the
claimed literal `Title not found`. -/
theorem c4_counterexample :
    soupC4.select "title" = []
    ∧ (web_scraper envC4 "https://e.com" none false).titleOf
      = some (some "Başlık bulunamadı")
    ∧ ("Başlık bulunamadı" : String) ≠ "Title not found" := by
  decide

/-- C4 (amended): the extracted title is the `.string` content of the first
element matched by the title selector (the element's text only when it has a
single string child, `None` otherwise); when no element matches, the title is
the literal `Başlık bulunamadı` (Turkish for "Title not found"). -/
theorem c4_title_extraction (env : Env) (url : String)
    (sel : Option (List (String × String))) (di : Bool) (soup : Soup)
    (tSel pSel lSel : String)
    (hf : env.fetch url = .ok soup)
    (ht : dictGet (effSelectors sel) "title" = some tSel)
    (hp : dictGet (effSelectors sel) "paragraphs" = some pSel)
    (hl : dictGet (effSelectors sel) "links" = some lSel) :
    (soup.select tSel = [] →
      (web_scraper env url sel di).titleOf = some (some "Başlık bulunamadı"))
    ∧ (∀ e : Elem, ∀ es : List Elem, soup.select tSel = e :: es →
      (web_scraper env url sel di).titleOf = some e.str_) := by
  constructor
  · intro hsel
    unfold web_scraper
    rw [hf, ht, hp, hl]
    simp [ScrapeResult.titleOf, extractTitle, hsel]
  · intro e es hsel
    unfold web_scraper
    rw [hf, ht, hp, hl]
    simp [ScrapeResult.titleOf, extractTitle, hsel]

/-- Witness for C4: the fallback branch of the amended theorem applied to the
concrete empty page. -/
theorem c4_title_extraction_witness :
    (web_scraper envC4 "https://e.com" none false).titleOf
      = some (some "Başlık bulunamadı") :=
  (c4_title_extraction envC4 "https://e.com" none false soupC4
    "title" "p" "a" rfl rfl rfl rfl).1 rfl

/-! ## Claim C5 -/

/-- The page used by claim C5: eleven anchors match the selector; the first
has no `href`, the remaining ten do. -/
def soupC5 : Soup :=
  { select := fun sel =>
      if sel == "a" then
        Elem.mk "t0" none [] ::
          (List.range 10).map
            (fun i => Elem.mk ("t" ++ toString (i + 1)) none
              [("href", "h" ++ toString (i + 1))])
      else []
    imgs := [] }

/-- The environment used by claim C5. -/
def envC5 : Env :=
  { fetch := fun _ => .ok soupC5
    urljoin := fun _ s => s
    imgFetchOk := fun _ => true
    writeOk := fun _ => true
    now := 0
    timestamp := "t"
    picturesDir := "pictures" }

/-- C5 counterexample: with eleven matching anchors of which the first lacks
an `href`, the code slices the first ten matches before filtering and returns
nine links, while the claimed "first matching elements that carry a non-null
href, up to ten" would return ten (including the eleventh anchor); the
eleventh anchor's entry is missing from the actual output. -/
theorem c5_counterexample :
    (web_scraper envC5 "https://e.com" none false).linksOf
      = some (extractLinks soupC5 "a")
    ∧ extractLinks soupC5 "a" ≠ specLinks soupC5 "a"
    ∧ (extractLinks soupC5 "a").length = 9
    ∧ (specLinks soupC5 "a").length = 10 := by
  decide

/-- C5 (amended): the links sequence consists of those among the **first ten
elements matched by the selector** (in document order) that carry a truthy
(non-null and non-empty) `href`, pairing trimmed text with the raw href;
hence it never has more than ten entries — the cap holds with 50 or more
matches — but matched elements after the tenth are never consulted, so
hrefless elements among the first ten reduce the count below ten. -/
theorem c5_links_slice_then_filter (env : Env) (url : String)
    (sel : Option (List (String × String))) (di : Bool) (soup : Soup)
    (tSel pSel lSel : String)
    (hf : env.fetch url = .ok soup)
    (ht : dictGet (effSelectors sel) "title" = some tSel)
    (hp : dictGet (effSelectors sel) "paragraphs" = some pSel)
    (hl : dictGet (effSelectors sel) "links" = some lSel) :
    (web_scraper env url sel di).linksOf
      = some ((((soup.select lSel).take 10).filter
          (fun a => truthy (a.attr "href"))).map
            (fun a => LinkRec.mk (pyStrip a.text) ((a.attr "href").getD "")))
    ∧ (((web_scraper env url sel di).linksOf.getD []).length ≤ 10) := by
  have h1 : (web_scraper env url sel di).linksOf
      = some (extractLinks soup lSel) := by
    unfold web_scraper
    rw [hf, ht, hp, hl]
    rfl
  constructor
  · rw [h1]
    rfl
  · rw [h1]
    simp only [Option.getD_some, extractLinks, List.length_map]
    calc (((soup.select lSel).take 10).filter
          (fun a => truthy (a.attr "href"))).length
        ≤ ((soup.select lSel).take 10).length := List.length_filter_le _ _
      _ ≤ 10 := by rw [List.length_take]; omega

/-- Witness for C5: the amended description applied to the concrete page with
eleven anchors. -/
theorem c5_links_slice_then_filter_witness :
    (web_scraper envC5 "https://e.com" none false).linksOf
      = some ((((soupC5.select "a").take 10).filter
          (fun a => truthy (a.attr "href"))).map
            (fun a => LinkRec.mk (pyStrip a.text) ((a.attr "href").getD ""))) :=
  (c5_links_slice_then_filter envC5 "https://e.com" none false soupC5
    "title" "p" "a" rfl rfl rfl rfl).1

/-! ## Claim C7 -/

/-- Below `0x80`, Python's `\w` is exactly ASCII alphanumerics plus the
underscore. -/
lemma pyWordChar_ascii (c : Char) (h : c.toNat < 128) :
    pyWordChar c = (c.isAlphanum || c == '_') := by
  unfold pyWordChar
  have h1 : decide (0xC0 ≤ c.toNat) = false := by
    simp only [decide_eq_false_iff_not]
    omega
  have h2 : (c.toNat == 0xAA) = false := by
    simp only [beq_eq_false_iff_ne]
    omega
  have h3 : (c.toNat == 0xB2) = false := by
    simp only [beq_eq_false_iff_ne]
    omega
  have h4 : (c.toNat == 0xB3) = false := by
    simp only [beq_eq_false_iff_ne]
    omega
  have h5 : (c.toNat == 0xB5) = false := by
    simp only [beq_eq_false_iff_ne]
    omega
  have h6 : (c.toNat == 0xB9) = false := by
    simp only [beq_eq_false_iff_ne]
    omega
  have h7 : (c.toNat == 0xBA) = false := by
    simp only [beq_eq_false_iff_ne]
    omega
  have h8 : (c.toNat == 0xBC) = false := by
    simp only [beq_eq_false_iff_ne]
    omega
  have h9 : (c.toNat == 0xBD) = false := by
    simp only [beq_eq_false_iff_ne]
    omega
  have h10 : (c.toNat == 0xBE) = false := by
    simp only [beq_eq_false_iff_ne]
    omega
  rw [h1, h2, h3, h4, h5, h6, h7, h8, h9, h10]
  simp

/-- The environment used by claim C7. -/
def envC7 : Env :=
  { fetch := fun _ => .otherError "x"
    urljoin := fun _ s => s
    imgFetchOk := fun _ => true
    writeOk := fun _ => true
    now := 0
    timestamp := "t"
    picturesDir := "pictures" }

/-- C7 counterexample: for the image URL `http://x.com/résumé.jpg` the code
keeps the accented letters — Python's `\w` matches Unicode alphanumerics — and
saves `résumé.jpg`, while stripping every character outside `[A-Za-z0-9_.-]`
as claimed would give `rsum.jpg`. -/
theorem c7_counterexample :
    basenameStr (urlPathStr "http://x.com/résumé.jpg") = "résumé.jpg"
    ∧ pySanitize "résumé.jpg" = "résumé.jpg"
    ∧ specSanitize "résumé.jpg" = "rsum.jpg"
    ∧ download_image envC7 "http://x.com/résumé.jpg" "pictures"
      = some "pictures/résumé.jpg"
    ∧ ("résumé.jpg" : String) ≠ "rsum.jpg" := by
  decide

/-- C7 (amended): the saved filename is the URL-path basename with every
character outside Python's `\w` class plus `-` and `.` removed — which for
ASCII input coincides with the claimed class `[A-Za-z0-9_.-]`, but keeps
Unicode alphanumerics — and when the stripped name is empty the name
`image_<unixTimestamp>.jpg` is synthesized; on a successful fetch and write,
the saved path joins the target directory with that filename. -/
theorem c7_filename_derivation :
    (∀ s : String, s.data.all (fun c => decide (c.toNat < 128)) = true →
      pySanitize s = specSanitize s)
    ∧ (∀ env : Env, ∀ url saveDir : String,
        (pyStartsWith url "http://" || pyStartsWith url "https://") = true →
        env.imgFetchOk url = true →
        env.writeOk (pathJoin saveDir (finalFilename env url)) = true →
        download_image env url saveDir
          = some (pathJoin saveDir (finalFilename env url)))
    ∧ (∀ env : Env, ∀ url : String,
        pySanitize (basenameStr (urlPathStr url)) = "" →
        finalFilename env url = "image_" ++ toString env.now ++ ".jpg")
    ∧ (∀ env : Env, ∀ url : String,
        pySanitize (basenameStr (urlPathStr url)) ≠ "" →
        finalFilename env url = pySanitize (basenameStr (urlPathStr url))) := by
  refine ⟨?_, ?_, ?_, ?_⟩
  · intro s hs
    unfold pySanitize specSanitize
    congr 1
    refine List.filter_congr (fun c hc => ?_)
    rw [List.all_eq_true] at hs
    have hlt : c.toNat < 128 := of_decide_eq_true (hs c hc)
    unfold pyKeepChar
    rw [pyWordChar_ascii c hlt]
    cases h1 : c.isAlphanum <;> cases h2 : (c == '_') <;>
      cases h3 : (c == '.') <;> cases h4 : (c == '-') <;> simp
  · intro env url saveDir h1 h2 h3
    unfold download_image
    rw [h1, h2]
    simp [h3]
  · intro env url h
    unfold finalFilename
    have hb : (pySanitize (basenameStr (urlPathStr url)) == "") = true := by
      rw [h]
      rfl
    simp [hb]
  · intro env url h
    unfold finalFilename
    have hb : (pySanitize (basenameStr (urlPathStr url)) == "") = false := by
      rw [beq_eq_false_iff_ne]
      exact h
    simp [hb]

/-- Witness for C7: the ASCII agreement and the successful-download path at
concrete inputs. -/
theorem c7_filename_derivation_witness :
    pySanitize "a b&c.png" = specSanitize "a b&c.png"
    ∧ download_image envC7 "http://x.com/img/a.png" "pictures"
      = some (pathJoin "pictures" (finalFilename envC7 "http://x.com/img/a.png")) :=
  ⟨c7_filename_derivation.1 "a b&c.png" (by decide),
   c7_filename_derivation.2.1 envC7 "http://x.com/img/a.png" "pictures"
     (by decide) (by decide) (by decide)⟩

/-! ## Claim C8 -/

/-- A remainder of a single-character matcher determines the consumed head
character. -/
lemma mem_charM {p : Char → Bool} {cs r : List Char} (h : r ∈ charM p cs) :
    ∃ c, cs = c :: r ∧ p c = true := by
  cases cs with
  | nil => simp [charM] at h
  | cons c cs' =>
    rcases Bool.eq_false_or_eq_true (p c) with hp | hp
    · simp [charM, hp] at h
      exact ⟨c, by rw [h], hp⟩
    · simp [charM, hp] at h

/-- An accepting run of a sequence passes through a remainder of its first
part. -/
lemma any_seqM {a b : M} {q : List Char → Bool} {cs : List Char}
    (h : ((seqM a b) cs).any q = true) :
    ∃ r ∈ a cs, (b r).any q = true := by
  unfold seqM at h
  rw [List.any_eq_true] at h
  obtain ⟨x, hx, hq⟩ := h
  rw [List.mem_flatMap] at hx
  obtain ⟨r, hr, hxr⟩ := hx
  exact ⟨r, hr, List.any_eq_true.mpr ⟨x, hxr, hq⟩⟩

/-- A remainder of an optional matcher either comes from the matcher or is
the input itself. -/
lemma mem_optM {a : M} {cs r : List Char} (h : r ∈ optM a cs) :
    r ∈ a cs ∨ r = cs := by
  unfold optM altM epsM at h
  rw [List.mem_append] at h
  rcases h with h | h
  · exact Or.inl h
  · rw [List.mem_singleton] at h
    exact Or.inr h

/-- Every string accepted by `validate_url` begins, case-insensitively, with
`http://` or `https://`; contrapositively, every string missing such a scheme
is rejected. -/
lemma validate_url_scheme_shape (s : String) (h : validate_url s = true) :
    schemeOk s = true := by
  have hp : url_pattern_match s = true := by
    unfold validate_url at h
    rcases Bool.eq_false_or_eq_true (url_pattern_match s) with hq | hq
    · exact hq
    · rw [hq] at h
      simp at h
  unfold url_pattern_match urlRegexM at hp
  obtain ⟨r1, hm1, hp1⟩ := any_seqM hp
  obtain ⟨c1, he1, hc1⟩ := mem_charM hm1
  obtain ⟨r2, hm2, hp2⟩ := any_seqM hp1
  obtain ⟨c2, he2, hc2⟩ := mem_charM hm2
  obtain ⟨r3, hm3, hp3⟩ := any_seqM hp2
  obtain ⟨c3, he3, hc3⟩ := mem_charM hm3
  obtain ⟨r4, hm4, hp4⟩ := any_seqM hp3
  obtain ⟨c4, he4, hc4⟩ := mem_charM hm4
  obtain ⟨r5, hm5, hp5⟩ := any_seqM hp4
  obtain ⟨r6, hm6, hp6⟩ := any_seqM hp5
  obtain ⟨c6, he6, hc6⟩ := mem_charM hm6
  obtain ⟨r7, hm7, hp7⟩ := any_seqM hp6
  obtain ⟨c7, he7, hc7⟩ := mem_charM hm7
  obtain ⟨r8, hm8, hp8⟩ := any_seqM hp7
  obtain ⟨c8, he8, hc8⟩ := mem_charM hm8
  have hl1 : c1.toLower = 'h' := eq_of_beq hc1
  have hl2 : c2.toLower = 't' := eq_of_beq hc2
  have hl3 : c3.toLower = 't' := eq_of_beq hc3
  have hl4 : c4.toLower = 'p' := eq_of_beq hc4
  have e6 : c6 = ':' := eq_of_beq hc6
  have e7 : c7 = '/' := eq_of_beq hc7
  have e8 : c8 = '/' := eq_of_beq hc8
  subst e6 e7 e8
  have tColon : Char.toLower ':' = ':' := by decide
  have tSlash : Char.toLower '/' = '/' := by decide
  rcases mem_optM hm5 with h5 | h5
  · obtain ⟨c5, he5, hc5⟩ := mem_charM h5
    have hl5 : c5.toLower = 's' := eq_of_beq hc5
    unfold schemeOk
    rw [he1, he2, he3, he4, he5, he6, he7, he8]
    simp [startsWithL, hl1, hl2, hl3, hl4, hl5, tColon, tSlash]
  · unfold schemeOk
    rw [he1, he2, he3, he4, ← h5, he6, he7, he8]
    simp [startsWithL, hl1, hl2, hl3, hl4, tColon, tSlash]

/-- C8 counterexample: `https://example.technology` is a well-formed absolute
https URL with a syntactically valid DNS-label-domain host, yet the validator
rejects it, because the pattern caps the final label at six letters. -/
theorem c8_counterexample :
    spec_wellformed_url "https://example.technology" = true
    ∧ validate_url "https://example.technology" = false := by
  decide

/-- C8 (amended): the validator accepts exactly the strings matching the
source pattern — a case-insensitive `http`/`https` scheme and a host that is
either dotted labels with a 2–6 letter alphabetic final label, `localhost`,
or four dot-separated groups of one to three digits (octet values unchecked),
with optional port and whitespace-free path.  Thus every accepted string has
an http(s) scheme (so empty strings and strings missing a scheme or host are
rejected), the spec's examples behave as claimed, but a well-formed URL with
a TLD longer than six letters is rejected and a dotted quad with out-of-range
octets is accepted.  The validator is total, so no exception escapes. -/
theorem c8_validator_behavior :
    (∀ s : String, validate_url s = true → schemeOk s = true)
    ∧ validate_url "" = false
    ∧ validate_url "https://example.com/path" = true
    ∧ validate_url "ftp://x.com" = false
    ∧ validate_url "not a url" = false
    ∧ validate_url "http://localhost:8080/abc" = true
    ∧ validate_url "http://999.999.999.999" = true
    ∧ validate_url "https://example.technology" = false := by
  refine ⟨validate_url_scheme_shape, ?_, ?_, ?_, ?_, ?_, ?_, ?_⟩ <;> decide

/-- Witness for C8: the scheme-shape consequence at a concrete accepted
URL. -/
theorem c8_validator_behavior_witness :
    schemeOk "http://a.com" = true :=
  c8_validator_behavior.1 "http://a.com" (by decide)

end WebScraper
